import Mathlib

/-!
Verification of the stock-portfolio management program (`src/main.py`).

The embedding models the persisted ledger records as structures with
optional `type`/`currency` fields (the JSON records are dicts whose keys
may be absent), prices and share counts as rationals, and the external
providers (akshare, exchangerate-api) as explicit inputs describing what
the provider call would return — including the case where it raises.
The Streamlit `st.cache_data` TTL cache for the FX rate is modelled as
explicit state: an optional `(value, fetchedAt)` entry threaded through
the lookup.
-/

namespace TarryStock

/-- A persisted ledger record (`portfolio_data.json` entry).  `type?` and
`currency?` are optional because legacy records may lack those keys; the
other keys are accessed unconditionally by the code.  Values of `type?`
are the strings "股票" / "ETF基金", of `currency?` the strings "CNY" / "HKD",
of `market` the strings "A股" / "港股", exactly as in the source. -/
structure RawAsset where
  symbol : String
  type? : Option String
  market : String
  currency? : Option String
  shares : ℚ
  cost_price : ℚ
  name : String
  current_price : ℚ
deriving DecidableEq, Repr

/-- The per-record migration performed by `load_portfolio` (main.py lines
27-29): `item.setdefault('type', "股票")` and
`item.setdefault('currency', 'HKD' if item['market'] == '港股' else 'CNY')`.
`setdefault` writes the default only when the key is absent. -/
def migrateItem (item : RawAsset) : RawAsset :=
  { item with
    type? := some (item.type?.getD "股票"),
    currency? := some (item.currency?.getD (if item.market = "港股" then "HKD" else "CNY")) }

/-- `load_portfolio` (main.py lines 20-32): if the data file exists, parse
it and migrate every record; otherwise return the empty list.  The stored
state is modelled as `Option (List RawAsset)` (`none` = no file). -/
def load_portfolio (stored : Option (List RawAsset)) : List RawAsset :=
  match stored with
  | some portfolio => portfolio.map migrateItem
  | none => []

/-- `save_portfolio` (main.py lines 35-38): serializes the records to the
data file.  JSON round-trips every field of these records, so at this
level of abstraction saving produces a stored state holding exactly the
given records (and the file now exists). -/
def save_portfolio (portfolio : List RawAsset) : Option (List RawAsset) :=
  some portfolio

/-- `calculate_return` (main.py lines 129-133). -/
def calculate_return (cost_price current_price : ℚ) : ℚ :=
  if cost_price = 0 then 0
  else ((current_price - cost_price) / cost_price) * 100

/-! ### FX-rate lookup with its `st.cache_data(ttl=3600)` cache -/

/-- TTL of the FX cache, seconds (main.py line 42). -/
def fx_ttl : ℕ := 3600

/-- One call of the cached `get_hkd_to_cny_rate` (main.py lines 42-51).
State of the `st.cache_data` cache: `none` when no entry is cached,
`some (v, t)` when value `v` was cached at time `t`; an entry older than
the TTL is discarded and the wrapped function re-runs.  `provider` is
what the HTTP fetch of the rate would yield at this moment: `some r` for
a successful response with CNY rate `r`, `none` when the request raises
or times out, in which case the function's `except` branch returns the
default rate 0.92.  The result of the re-run (including the 0.92
default) is what the cache stores.  Returns (returned rate, new cache
state). -/
def get_hkd_to_cny_rate (cache : Option (ℚ × ℕ)) (now : ℕ) (provider : Option ℚ) :
    ℚ × Option (ℚ × ℕ) :=
  match cache with
  | some (v, t) =>
    if now - t < fx_ttl then (v, some (v, t))
    else
      match provider with
      | some r => (r, some (r, now))
      | none => ((0.92 : ℚ), some ((0.92 : ℚ), now))
  | none =>
    match provider with
    | some r => (r, some (r, now))
    | none => ((0.92 : ℚ), some ((0.92 : ℚ), now))

/-! ### Quote lookups -/

/-- A quote record as returned by `get_stock_info` / `get_etf_info`:
keys `name`, `current_price`, `currency`. -/
structure Quote where
  name : String
  current_price : ℚ
  currency : String
deriving DecidableEq, Repr

/-- Python `str.zfill`: left-pad with '0' to the given width (symbols here
carry no sign, so the sign-aware case does not arise). -/
def zfill (width : ℕ) (s : String) : String :=
  if width ≤ s.length then s
  else String.mk (List.replicate (width - s.length) '0') ++ s

/-- What the akshare calls inside `get_stock_info` would yield on this
invocation.  `raises = true` models any exception escaping the `try`
block (network failure, timeout, parse error).  On success: for the A股
branch, `a_name?`/`a_price?` are the `股票简称` / `最新` entries of the
`stock_individual_info_em` dict (absent keys fall back to defaults via
`.get`); for the 港股 branch, `hk_row` is the row of `stock_hk_spot_em`
matching the padded symbol (`none` when `stock_row.empty`). -/
structure StockProvider where
  raises : Bool
  a_name? : Option String
  a_price? : Option ℚ
  hk_row : Option (String × ℚ)
deriving DecidableEq, Repr

/-- `get_stock_info` (main.py lines 56-91), with the provider response as
an explicit input; `symbol` is taken already stripped (the code strips it
first).  The `except` branch (lines 85-91) returns the degraded
placeholder `{name: symbol, current_price: 0, currency: 'HKD' if market
== '港股' else 'CNY'}`. -/
def get_stock_info (symbol : String) (market : String) (p : StockProvider) : Quote :=
  if p.raises then
    { name := symbol, current_price := 0,
      currency := if market = "港股" then "HKD" else "CNY" }
  else if market = "A股" then
    { name := p.a_name?.getD ("股票 " ++ zfill 6 symbol),
      current_price := p.a_price?.getD 0, currency := "CNY" }
  else
    match p.hk_row with
    | some (n, price) => { name := n, current_price := price, currency := "HKD" }
    | none => { name := "港股 " ++ symbol, current_price := 0, currency := "HKD" }

/-- What the `fund_etf_spot_em` call inside `get_etf_info` would yield:
`raises = true` for an escaping exception; otherwise `row` is the row
matching the padded symbol (`none` when empty), carrying the `名称` entry
and the `最新价` entry — the latter is `some price` when numeric and
`none` otherwise (the code coerces a non-numeric price to 0.0). -/
structure EtfProvider where
  raises : Bool
  row : Option (String × Option ℚ)
deriving DecidableEq, Repr

/-- Python `round` to 3 decimal places on exact decimal data: scale by
1000 and round half-to-even (banker's rounding). -/
def py_round3 (q : ℚ) : ℚ :=
  let scaled := q * 1000
  let f : ℤ := Int.floor scaled
  let frac := scaled - f
  let r : ℤ :=
    if frac < 1/2 then f
    else if 1/2 < frac then f + 1
    else if f % 2 = 0 then f else f + 1
  (r : ℚ) / 1000

/-- `get_etf_info` (main.py lines 96-126), with the provider response as
an explicit input; `symbol` is taken already stripped and 6-zero-padded
(line 99 does both before the lookup — the padded symbol is also the one
echoed in the placeholder names).  The `except` branch (lines 120-126)
returns `{name: f"ETF基金 {symbol}", current_price: 0.0, currency:
'CNY'}`. -/
def get_etf_info (symbol : String) (p : EtfProvider) : Quote :=
  if p.raises then
    { name := "ETF基金 " ++ symbol, current_price := 0, currency := "CNY" }
  else
    match p.row with
    | some (n, price?) =>
      { name := n,
        current_price := py_round3 (match price? with | some pr => pr | none => 0),
        currency := "CNY" }
    | none => { name := "ETF基金 " ++ symbol, current_price := 0, currency := "CNY" }

/-! ### Render-path aggregation (main line of `main`, lines 246-313) -/

/-- The field backfill the render loop applies to each asset before
computing its values (main.py lines 253-254):
`asset.setdefault('type', "股票")` and `asset.setdefault('currency',
'CNY')`.  Note the currency default is unconditionally 'CNY', unlike
`load_portfolio`'s market-dependent default. -/
def renderDefaults (asset : RawAsset) : RawAsset :=
  { asset with
    type? := some (asset.type?.getD "股票"),
    currency? := some (asset.currency?.getD "CNY") }

/-- The reporting-currency figures computed for one asset by the render
loop: `market_value_cny`, `cost_value_cny`, `profit_cny` (lines 262-270)
and `return_rate` (line 259). -/
structure Row where
  market_value_cny : ℚ
  cost_value_cny : ℚ
  profit_cny : ℚ
  return_rate : ℚ
deriving DecidableEq, Repr

/-- One iteration of the render loop (main.py lines 251-274): apply the
`setdefault` backfill to the asset (this mutates the ledger entry in
place, so the updated asset is part of the result), compute its native
market value, cost and profit, and convert to CNY by multiplying by
`hkd_to_cny` exactly when the (possibly just-defaulted) currency is
'HKD'. -/
def aggregateAsset (hkd_to_cny : ℚ) (asset0 : RawAsset) : RawAsset × Row :=
  let asset := renderDefaults asset0
  let market_value := asset.shares * asset.current_price
  let cost_value := asset.shares * asset.cost_price
  let return_rate := calculate_return asset.cost_price asset.current_price
  let profit := market_value - cost_value
  if asset.currency? = some "HKD" then
    (asset,
     { market_value_cny := market_value * hkd_to_cny,
       cost_value_cny := cost_value * hkd_to_cny,
       profit_cny := profit * hkd_to_cny,
       return_rate := return_rate })
  else
    (asset,
     { market_value_cny := market_value,
       cost_value_cny := cost_value,
       profit_cny := profit,
       return_rate := return_rate })

/-- The portfolio totals accumulated by the render loop (lines 248 and
272-274): `total_assets`, `total_investment`, `total_profit`. -/
structure Totals where
  total_assets : ℚ
  total_investment : ℚ
  total_profit : ℚ
deriving DecidableEq, Repr

/-- The whole render-path aggregation (main.py lines 246-274): run the
per-asset computation over the ledger and sum the CNY figures.  Returns
the ledger as it stands after the loop (the `setdefault` calls mutate
its entries) together with the totals. -/
def aggregate (hkd_to_cny : ℚ) (portfolio : List RawAsset) : List RawAsset × Totals :=
  let pairs := portfolio.map (aggregateAsset hkd_to_cny)
  (pairs.map Prod.fst,
   { total_assets := (pairs.map (fun pr => pr.2.market_value_cny)).sum,
     total_investment := (pairs.map (fun pr => pr.2.cost_value_cny)).sum,
     total_profit := (pairs.map (fun pr => pr.2.profit_cny)).sum })

/-- The portfolio-level return percentage displayed by the metric widget
(main.py line 307): `total_profit / total_investment * 100 if
total_investment > 0 else 0`. -/
def total_return_pct (total_profit total_investment : ℚ) : ℚ :=
  if 0 < total_investment then total_profit / total_investment * 100 else 0

/-! ### Asset Registry: the Add form handler (main.py lines 149-183) -/

/-- Outcome of one submission of the add-asset form: the in-memory
ledger afterwards, whether `save_portfolio` ran (and hence what is
persisted), whether a provider lookup (`get_stock_info`/`get_etf_info`)
was made, and whether the validation error message was shown instead. -/
structure AddOutcome where
  portfolio : List RawAsset
  persisted : Option (List RawAsset)
  saved : Bool
  provider_called : Bool
  validation_error : Bool
deriving Repr

/-- The submitted add-asset form handler (main.py lines 164-183).  The
guard on line 164 is `submitted and symbol and shares > 0 and cost_price
> 0` — `symbol` is truthy iff non-empty.  Only inside the accepted
branch does the code call the provider (line 165), append the new asset
(line 178) and save (line 179); otherwise it shows the validation error
(line 183) and touches nothing.  `asset_info` is the quote the provider
lookup would return if made; `persisted0` is the stored state before the
submission. -/
def addAsset (portfolio : List RawAsset) (persisted0 : Option (List RawAsset))
    (asset_type symbol market : String) (shares cost_price : ℚ)
    (asset_info : Quote) : AddOutcome :=
  if symbol ≠ "" ∧ 0 < shares ∧ 0 < cost_price then
    let new_asset : RawAsset :=
      { symbol := symbol,
        type? := some asset_type,
        market := market,
        shares := shares,
        cost_price := if asset_type = "ETF基金" then py_round3 cost_price else cost_price,
        name := asset_info.name,
        current_price := asset_info.current_price,
        currency? := some asset_info.currency }
    let portfolio1 := portfolio ++ [new_asset]
    { portfolio := portfolio1,
      persisted := save_portfolio portfolio1,
      saved := true,
      provider_called := true,
      validation_error := false }
  else
    { portfolio := portfolio,
      persisted := persisted0,
      saved := false,
      provider_called := false,
      validation_error := true }

/-! ### Concrete records used in scenarios and witnesses -/

/-- The domestic equity of the spec scenario: shares=100, cost=10.00,
price=12.00, Local currency. -/
def domesticEquity : RawAsset :=
  { symbol := "000001", type? := some "股票", market := "A股", currency? := some "CNY",
    shares := 100, cost_price := 10, name := "平安银行", current_price := 12 }

/-- The foreign (Hong Kong) equity of the spec scenario: shares=50,
cost=20.00, price=18.00, Foreign currency. -/
def foreignEquity : RawAsset :=
  { symbol := "00700", type? := some "股票", market := "港股", currency? := some "HKD",
    shares := 50, cost_price := 20, name := "腾讯控股", current_price := 18 }

/-- A legacy Hong Kong record lacking both the `type` and `currency`
keys. -/
def incompleteHkAsset : RawAsset :=
  { symbol := "00700", type? := none, market := "港股", currency? := none,
    shares := 50, cost_price := 20, name := "腾讯控股", current_price := 18 }

/-- A stored record whose `currency` key is present but disagrees with
its market: Hong Kong market with Local currency. -/
def mismatchedRecord : RawAsset :=
  { symbol := "00700", type? := some "股票", market := "港股", currency? := some "CNY",
    shares := 50, cost_price := 20, name := "腾讯控股", current_price := 18 }

/-! ### Helper lemmas -/

/-- The Local and Foreign currency codes are distinct strings. -/
lemma cny_ne_hkd : ("CNY" = "HKD") = False := by simp

/-- The per-asset render step always returns the `setdefault`-backfilled
asset as its first component, in both currency branches. -/
lemma aggregateAsset_fst (rate : ℚ) (a : RawAsset) :
    (aggregateAsset rate a).1 = renderDefaults a := by
  by_cases h : (renderDefaults a).currency? = some "HKD" <;> simp [aggregateAsset, h]

/-- The render-loop backfill does nothing to an asset whose `type` and
`currency` keys are both present. -/
lemma renderDefaults_of_complete (a : RawAsset) (ht : a.type?.isSome)
    (hc : a.currency?.isSome) : renderDefaults a = a := by
  cases a with
  | mk symbol type? market currency? shares cost_price name current_price =>
    cases type? with
    | none => simp at ht
    | some t =>
      cases currency? with
      | none => simp at hc
      | some c => simp [renderDefaults]

/-- The load-time migration is idempotent on a single record. -/
lemma migrateItem_idem (r : RawAsset) : migrateItem (migrateItem r) = migrateItem r := by
  simp [migrateItem]

/-- The render-loop backfill touches only `type?`/`currency?`. -/
lemma renderDefaults_shares (a : RawAsset) : (renderDefaults a).shares = a.shares := rfl

/-- The render-loop backfill touches only `type?`/`currency?`. -/
lemma renderDefaults_cost_price (a : RawAsset) :
    (renderDefaults a).cost_price = a.cost_price := rfl

/-- The render-loop backfill touches only `type?`/`currency?`. -/
lemma renderDefaults_current_price (a : RawAsset) :
    (renderDefaults a).current_price = a.current_price := rfl

/-- The ledger as left behind by the render loop is the record-wise
backfill of the input ledger. -/
lemma aggregate_fst (rate : ℚ) (portfolio : List RawAsset) :
    (aggregate rate portfolio).1 = portfolio.map renderDefaults := by
  simp [aggregate, List.map_map, Function.comp_def, aggregateAsset_fst]

/-! ### Claim theorems -/

/-- C7: the return computation yields 0 when the cost price is 0 and
`(current - cost) / cost * 100` otherwise (stated multiplicatively to
show the guarded division is exact); the division branch is only taken
with a non-zero divisor, so no division error can occur. -/
theorem calculate_return_zero_cost_safe (cost_price current_price : ℚ) :
    (cost_price = 0 → calculate_return cost_price current_price = 0) ∧
    (cost_price ≠ 0 →
      calculate_return cost_price current_price * cost_price =
        (current_price - cost_price) * 100) := by
  constructor
  · intro h
    simp [calculate_return, h]
  · intro h
    rw [calculate_return, if_neg h]
    field_simp

/-- Witness for C7 at cost=0, current=7 and cost=10, current=12. -/
theorem calculate_return_zero_cost_safe_witness :
    calculate_return 0 7 = 0 ∧ calculate_return 10 12 * 10 = (12 - 10) * 100 :=
  ⟨(calculate_return_zero_cost_safe 0 7).1 rfl,
   (calculate_return_zero_cost_safe 10 12).2 (by norm_num)⟩

/-- C2: each asset's reporting-currency market value, cost and profit are
the native figures multiplied by the FX rate exactly when the asset's
(backfilled) currency is Foreign ('HKD'), and the native figures
unchanged otherwise; and on the scenario ledger of one Domestic Equity
(100 shares, cost 10, price 12) and one Foreign Equity (50 shares, cost
20, price 18) with fxRate 0.92, the totals are 2028 / 1920 / 108 and the
portfolio return percentage is 5.625. -/
theorem aggregator_fx_conversion_and_scenario (rate : ℚ) (a : RawAsset) :
    ((aggregateAsset rate a).2.market_value_cny,
     (aggregateAsset rate a).2.cost_value_cny,
     (aggregateAsset rate a).2.profit_cny) =
      (if (renderDefaults a).currency? = some "HKD" then
        (a.shares * a.current_price * rate, a.shares * a.cost_price * rate,
         (a.shares * a.current_price - a.shares * a.cost_price) * rate)
       else
        (a.shares * a.current_price, a.shares * a.cost_price,
         a.shares * a.current_price - a.shares * a.cost_price)) ∧
    (aggregate (0.92 : ℚ) [domesticEquity, foreignEquity]).2 =
      { total_assets := 2028, total_investment := 1920, total_profit := 108 } ∧
    total_return_pct 108 1920 = 5.625 := by
  refine ⟨?_, ?_, ?_⟩
  · by_cases h : (renderDefaults a).currency? = some "HKD" <;>
      simp [aggregateAsset, h, renderDefaults_shares, renderDefaults_cost_price,
        renderDefaults_current_price]
  · norm_num [aggregate, aggregateAsset, renderDefaults, domesticEquity, foreignEquity,
      calculate_return, cny_ne_hkd]
  · norm_num [total_return_pct]

/-- C1 counterexample: on a ledger entry lacking the `type`/`currency`
keys, the render-path aggregation does mutate the entry — the
`setdefault` calls on lines 253-254 write default fields into it. -/
theorem aggregate_mutates_incomplete_entry :
    (aggregate (0.92 : ℚ) [incompleteHkAsset]).1 ≠ [incompleteHkAsset] := by
  rw [aggregate_fst]
  simp [renderDefaults, incompleteHkAsset]

/-- C1 (amended): the aggregation is a pure function of the ledger and
the FX rate, and on any ledger whose entries all carry the `type` and
`currency` fields it leaves every entry unchanged; entries missing one
of those fields are backfilled in place (`type` to "股票", `currency` to
"CNY") as the loop visits them. -/
theorem aggregate_preserves_complete_ledger (rate : ℚ) (portfolio : List RawAsset)
    (h : ∀ a ∈ portfolio, a.type?.isSome ∧ a.currency?.isSome) :
    (aggregate rate portfolio).1 = portfolio := by
  rw [aggregate_fst]
  induction portfolio with
  | nil => rfl
  | cons a rest ih =>
    have ha := h a (List.mem_cons_self a rest)
    rw [List.map_cons, renderDefaults_of_complete a ha.1 ha.2,
      ih (fun b hb => h b (List.mem_cons_of_mem a hb))]

/-- Witness for the amended C1 on the two-asset scenario ledger, whose
entries are complete. -/
theorem aggregate_preserves_complete_ledger_witness :
    (aggregate (0.92 : ℚ) [domesticEquity, foreignEquity]).1 =
      [domesticEquity, foreignEquity] :=
  aggregate_preserves_complete_ledger 0.92 [domesticEquity, foreignEquity] (by
    intro a ha
    simp only [List.mem_cons, List.not_mem_nil, or_false] at ha
    rcases ha with rfl | rfl <;> exact ⟨rfl, rfl⟩)

/-- C8: loading, saving and re-loading equals a single load — the
migration applied on load is idempotent — and the migration fills an
absent `type` with "股票" (Equity) and an absent `currency` from the
market ("港股" gives "HKD", else "CNY"), leaving present fields as they
are. -/
theorem migration_roundtrip_idempotent (stored : Option (List RawAsset)) :
    load_portfolio (save_portfolio (load_portfolio stored)) = load_portfolio stored ∧
    ∀ r : RawAsset,
      (migrateItem r).type? = some (r.type?.getD "股票") ∧
      (migrateItem r).currency? =
        some (r.currency?.getD (if r.market = "港股" then "HKD" else "CNY")) := by
  constructor
  · cases stored with
    | none => rfl
    | some portfolio =>
      simp [load_portfolio, save_portfolio, List.map_map, Function.comp_def,
        migrateItem_idem]
  · intro r
    exact ⟨rfl, rfl⟩

/-- C3 counterexample: a rate of 0.95 fetched successfully at time 0 is
the last-known-good value, but when it has gone stale (now = 3600s) and
the provider fails, the lookup returns the default 0.92, not 0.95 — the
TTL cache discards the expired entry, so no last-known-good policy
exists. -/
theorem fx_failure_ignores_last_known_good :
    (get_hkd_to_cny_rate (some ((0.95 : ℚ), 0)) 3600 none).1 = 0.92 ∧
    ¬ (get_hkd_to_cny_rate (some ((0.95 : ℚ), 0)) 3600 none).1 = 0.95 := by
  norm_num [get_hkd_to_cny_rate, fx_ttl]

/-- C3 (amended): a cached rate younger than the 3600s TTL is returned
as-is, without consulting the provider; once the entry is stale — or
when nothing is cached — a failing provider call yields the default
0.92, regardless of any previously fetched rate. -/
theorem fx_rate_failure_policy (v : ℚ) (t now : ℕ) (provider : Option ℚ) :
    (now - t < fx_ttl → (get_hkd_to_cny_rate (some (v, t)) now provider).1 = v) ∧
    (¬ now - t < fx_ttl → (get_hkd_to_cny_rate (some (v, t)) now none).1 = 0.92) ∧
    (get_hkd_to_cny_rate none now none).1 = 0.92 := by
  refine ⟨fun h => ?_, fun h => ?_, rfl⟩
  · simp [get_hkd_to_cny_rate, h]
  · simp [get_hkd_to_cny_rate, h]

/-- Witness for the amended C3: a fresh entry is served as-is even with
a live provider; a stale entry plus provider failure yields 0.92. -/
theorem fx_rate_failure_policy_witness :
    (get_hkd_to_cny_rate (some ((0.95 : ℚ), 0)) 100 (some 0.9)).1 = 0.95 ∧
    (get_hkd_to_cny_rate (some ((0.95 : ℚ), 0)) 3601 none).1 = 0.92 :=
  ⟨(fx_rate_failure_policy 0.95 0 100 (some 0.9)).1 (by norm_num [fx_ttl]),
   (fx_rate_failure_policy 0.95 0 3601 none).2.1 (by norm_num [fx_ttl])⟩

/-- C4 counterexample: a stored record with market "港股" and a present
currency "CNY" passes through `load_portfolio` unchanged — `setdefault`
never overwrites a present key, so the mismatch is not corrected and the
loaded asset violates market = HongKong ↔ currency = Foreign. -/
theorem load_preserves_market_currency_mismatch :
    load_portfolio (some [mismatchedRecord]) = [mismatchedRecord] ∧
    mismatchedRecord.market = "港股" ∧
    mismatchedRecord.currency? = some "CNY" ∧
    (some "CNY" : Option String) ≠ some "HKD" := by
  refine ⟨?_, rfl, rfl, by decide⟩
  simp [load_portfolio, migrateItem, mismatchedRecord]

/-- C4 (amended): Load's migration only fills absent fields — an absent
`type` becomes "股票" and an absent `currency` is derived from the market
("港股" gives "HKD", else "CNY") — while a present `type` or `currency`
is preserved verbatim, even when it disagrees with the market; the
market/currency invariant therefore holds only for records loaded
without a `currency` key. -/
theorem load_migration_fills_only_missing (r : RawAsset) :
    (r.type? = none → (migrateItem r).type? = some "股票") ∧
    (r.currency? = none →
      (migrateItem r).currency? = some (if r.market = "港股" then "HKD" else "CNY")) ∧
    (∀ c, r.currency? = some c → (migrateItem r).currency? = some c) ∧
    (∀ ty, r.type? = some ty → (migrateItem r).type? = some ty) := by
  refine ⟨fun h => ?_, fun h => ?_, fun c h => ?_, fun ty h => ?_⟩ <;>
    simp [migrateItem, h]

/-- Witness for the amended C4: the legacy record missing its currency
gets "HKD" from its "港股" market; the mismatched record keeps its
"CNY". -/
theorem load_migration_fills_only_missing_witness :
    (migrateItem incompleteHkAsset).currency? = some "HKD" ∧
    (migrateItem mismatchedRecord).currency? = some "CNY" :=
  ⟨by simpa using (load_migration_fills_only_missing incompleteHkAsset).2.1 rfl,
   (load_migration_fills_only_missing mismatchedRecord).2.2.1 "CNY" rfl⟩

/-- C5 counterexample: when the ETF provider call raises, the returned
placeholder's name is "ETF基金 " prefixed to the symbol, not the bare
symbol the claim states. -/
theorem etf_failure_placeholder_name_not_symbol :
    get_etf_info "159691" { raises := true, row := none } =
      { name := "ETF基金 159691", current_price := 0, currency := "CNY" } ∧
    ("ETF基金 159691" : String) ≠ "159691" := by
  exact ⟨rfl, by decide⟩

/-- C5 (amended): when the provider call raises, neither lookup
propagates the failure; the equity lookup returns `{name: symbol,
price: 0, currency: "HKD" for the 港股 market else "CNY"}`, and the ETF
lookup returns `{name: "ETF基金 " ++ symbol, price: 0, currency:
"CNY"}`. -/
theorem quote_failure_placeholders (symbol market : String)
    (p : StockProvider) (q : EtfProvider) (hp : p.raises = true) (hq : q.raises = true) :
    get_stock_info symbol market p =
      { name := symbol, current_price := 0,
        currency := if market = "港股" then "HKD" else "CNY" } ∧
    get_etf_info symbol q =
      { name := "ETF基金 " ++ symbol, current_price := 0, currency := "CNY" } := by
  constructor <;> simp [get_stock_info, get_etf_info, hp, hq]

/-- Witness for the amended C5 at symbol "00700" with raising
providers. -/
theorem quote_failure_placeholders_witness :
    get_stock_info "00700" "港股"
        { raises := true, a_name? := none, a_price? := none, hk_row := none } =
      { name := "00700", current_price := 0,
        currency := if ("港股" : String) = "港股" then "HKD" else "CNY" } ∧
    get_etf_info "00700" { raises := true, row := none } =
      { name := "ETF基金 " ++ "00700", current_price := 0, currency := "CNY" } :=
  quote_failure_placeholders "00700" "港股"
    { raises := true, a_name? := none, a_price? := none, hk_row := none }
    { raises := true, row := none } rfl rfl

/-- C6: a submitted Add whose shares are non-positive, whose cost price
is non-positive, or whose symbol is empty is rejected with the
validation error; the in-memory ledger and the persisted state are
unchanged, nothing is saved, and no provider lookup is made. -/
theorem add_rejected_leaves_ledger_unchanged (portfolio : List RawAsset)
    (persisted0 : Option (List RawAsset)) (asset_type symbol market : String)
    (shares cost_price : ℚ) (info : Quote)
    (h : shares ≤ 0 ∨ cost_price ≤ 0 ∨ symbol = "") :
    (addAsset portfolio persisted0 asset_type symbol market shares cost_price
        info).validation_error = true ∧
    (addAsset portfolio persisted0 asset_type symbol market shares cost_price
        info).portfolio = portfolio ∧
    (addAsset portfolio persisted0 asset_type symbol market shares cost_price
        info).persisted = persisted0 ∧
    (addAsset portfolio persisted0 asset_type symbol market shares cost_price
        info).saved = false ∧
    (addAsset portfolio persisted0 asset_type symbol market shares cost_price
        info).provider_called = false := by
  have hguard : ¬(symbol ≠ "" ∧ 0 < shares ∧ 0 < cost_price) := by
    rcases h with h | h | h
    · exact fun hg => absurd hg.2.1 (not_lt.mpr h)
    · exact fun hg => absurd hg.2.2 (not_lt.mpr h)
    · exact fun hg => hg.1 h
  simp [addAsset, hguard]

/-- Witness for C6: adding with shares = 0 onto a one-asset ledger. -/
theorem add_rejected_leaves_ledger_unchanged_witness :
    (addAsset [domesticEquity] (some [domesticEquity]) "股票" "000001" "A股" 0 10
        { name := "平安银行", current_price := 12, currency := "CNY" }).validation_error = true ∧
    (addAsset [domesticEquity] (some [domesticEquity]) "股票" "000001" "A股" 0 10
        { name := "平安银行", current_price := 12, currency := "CNY" }).portfolio =
      [domesticEquity] ∧
    (addAsset [domesticEquity] (some [domesticEquity]) "股票" "000001" "A股" 0 10
        { name := "平安银行", current_price := 12, currency := "CNY" }).persisted =
      some [domesticEquity] ∧
    (addAsset [domesticEquity] (some [domesticEquity]) "股票" "000001" "A股" 0 10
        { name := "平安银行", current_price := 12, currency := "CNY" }).saved = false ∧
    (addAsset [domesticEquity] (some [domesticEquity]) "股票" "000001" "A股" 0 10
        { name := "平安银行", current_price := 12, currency := "CNY" }).provider_called =
      false :=
  add_rejected_leaves_ledger_unchanged [domesticEquity] (some [domesticEquity])
    "股票" "000001" "A股" 0 10
    { name := "平安银行", current_price := 12, currency := "CNY" }
    (Or.inl (by norm_num))

/-- C10: an asset reaching the render loop without a `currency` field is
given "CNY" unconditionally (main.py line 254), so its market value,
cost, and profit enter the totals unconverted even when its market is
"港股"; Load's migration would instead have derived "HKD" from that
market, so the two defaults disagree on such an asset. -/
theorem render_missing_currency_defaults_to_local (rate : ℚ) (a : RawAsset)
    (h : a.currency? = none) :
    (renderDefaults a).currency? = some "CNY" ∧
    (aggregateAsset rate a).2.market_value_cny = a.shares * a.current_price ∧
    (aggregateAsset rate a).2.cost_value_cny = a.shares * a.cost_price ∧
    (aggregateAsset rate a).2.profit_cny =
      a.shares * a.current_price - a.shares * a.cost_price ∧
    (a.market = "港股" → (migrateItem a).currency? = some "HKD" ∧
      (migrateItem a).currency? ≠ (renderDefaults a).currency?) := by
  have hc : (renderDefaults a).currency? = some "CNY" := by simp [renderDefaults, h]
  have hne : (renderDefaults a).currency? ≠ some "HKD" := by rw [hc]; simp
  refine ⟨hc, ?_, ?_, ?_, fun hm => ?_⟩
  · simp [aggregateAsset, hne, renderDefaults_shares, renderDefaults_current_price]
  · simp [aggregateAsset, hne, renderDefaults_shares, renderDefaults_cost_price]
  · simp [aggregateAsset, hne, renderDefaults_shares, renderDefaults_cost_price,
      renderDefaults_current_price]
  · rw [hc]
    constructor <;> simp [migrateItem, h, hm]

/-- Witness for C10 on the legacy Hong Kong record lacking its currency
field. -/
theorem render_missing_currency_defaults_to_local_witness :
    (renderDefaults incompleteHkAsset).currency? = some "CNY" ∧
    (aggregateAsset (0.92 : ℚ) incompleteHkAsset).2.market_value_cny =
      incompleteHkAsset.shares * incompleteHkAsset.current_price ∧
    (aggregateAsset (0.92 : ℚ) incompleteHkAsset).2.cost_value_cny =
      incompleteHkAsset.shares * incompleteHkAsset.cost_price ∧
    (aggregateAsset (0.92 : ℚ) incompleteHkAsset).2.profit_cny =
      incompleteHkAsset.shares * incompleteHkAsset.current_price -
        incompleteHkAsset.shares * incompleteHkAsset.cost_price ∧
    (incompleteHkAsset.market = "港股" →
      (migrateItem incompleteHkAsset).currency? = some "HKD" ∧
      (migrateItem incompleteHkAsset).currency? ≠
        (renderDefaults incompleteHkAsset).currency?) :=
  render_missing_currency_defaults_to_local 0.92 incompleteHkAsset rfl

end TarryStock
